import Mathlib

/-!
Shallow embedding of the PDF-summarizer pipeline: PDF extraction,
provider-adapter selection, the two LLM adapters (local server and cloud
API), the orchestrator `PDFSummarizer.summarize`, and the HTTP endpoint
`summarize_pdf`.  External effects (file system, HTTP transport, the
provider's parsed response) are passed in explicitly; exceptions are
modelled with `Except` over an error-kind type.
-/

/-- Python-style heterogeneous value, used for `Dict[str, Any]` metadata. -/
inductive PyValue where
  | pyStr (s : String)
  | pyInt (n : Int)
  | pyNone
  | pyDict (d : List (String × PyValue))

/-- Python exception kinds raised in this pipeline (`FileNotFoundError`,
`ValueError`, `ConnectionError`, `httpx.HTTPStatusError`, anything else). -/
inductive PyError where
  | fileNotFound (msg : String)
  | valueError (msg : String)
  | connectionError (msg : String)
  | httpStatusError (msg : String)
  | otherError (msg : String)
deriving DecidableEq

/-- Python `str(e)`: the message carried by the exception. -/
def PyError.message : PyError → String
  | .fileNotFound m => m
  | .valueError m => m
  | .connectionError m => m
  | .httpStatusError m => m
  | .otherError m => m

/-- Python `str.lower()`: lowercases every character. -/
def strToLower (s : String) : String := ⟨s.data.map Char.toLower⟩

/-- Python `str.endswith(post)`: the character sequence of `post` is a suffix
of the character sequence of `s`. -/
def strEndsWith (s post : String) : Bool := List.isSuffixOf post.data s.data

/-- Python `str.startswith(pre)`: the character sequence of `pre` leads the
character sequence of `s`. -/
def strStartsWith (s pre : String) : Bool := List.isPrefixOf pre.data s.data

/-- Python `d.get(key, default)` over an association list of strings. -/
def dictGet (d : List (String × String)) (key dflt : String) : String :=
  match d.find? (fun kv => kv.1 == key) with
  | some kv => kv.2
  | none => dflt

/-- Python `d.get(key)` over a heterogeneous metadata dictionary. -/
def metaLookup (d : List (String × PyValue)) (key : String) : Option PyValue :=
  match d.find? (fun kv => kv.1 == key) with
  | some kv => some kv.2
  | none => none

/-! ## PDF extraction (`pdf_extractor.py`) -/

/-- Embeds `PDFExtractorConfig`. -/
structure PDFExtractorConfig where
  extract_images : Bool := false
  extract_tables : Bool := false
  page_range : Option (Int × Int) := none

/-- Embeds `PDFExtractResult`. -/
structure PDFExtractResult where
  text : String
  path : String
  pages : Nat
  metadata : List (String × String) := []

/-- What `PyPDF2.PdfReader` yields for a parseable document: the per-page
extracted texts and the raw metadata items (keys possibly starting with `/`). -/
structure PDFDocument where
  pageTexts : List String
  rawMetadata : List (String × String) := []

/-- The state of the file system at a path, as `PDFExtractor.extract` observes
it: no file, a file `PyPDF2` rejects with `PdfReadError`, or a parseable PDF. -/
inductive PDFFile where
  | missing
  | unreadable (msg : String)
  | readable (doc : PDFDocument)

/-- Key normalization in `extract`: `if key.startswith('/'): key = key[1:]`. -/
def stripSlashKey (k : String) : String :=
  if strStartsWith k "/" then ⟨k.data.drop 1⟩ else k

/-- Embeds `PDFExtractor.extract`.  The `file` argument is what the file system
holds at `pdf_path`.  `for page_num in range(start_page, end_page)` becomes
`List.range'` over the clamped bounds. -/
def PDFExtractor.extract (config : PDFExtractorConfig) (pdf_path : String)
    (file : PDFFile) : Except PyError PDFExtractResult :=
  match file with
  | .missing => .error (.fileNotFound ("PDF file not found: " ++ pdf_path))
  | .unreadable msg => .error (.valueError ("Invalid PDF file: " ++ msg))
  | .readable doc =>
    let num_pages : Nat := doc.pageTexts.length
    let metadata := doc.rawMetadata.map (fun kv => (stripSlashKey kv.1, kv.2))
    let start_page : Int :=
      match config.page_range with
      | some r => max 0 r.1
      | none => 0
    let end_page : Int :=
      match config.page_range with
      | some r => min (num_pages : Int) r.2
      | none => (num_pages : Int)
    let text_content :=
      (List.range' start_page.toNat (end_page - start_page).toNat).map
        (fun page_num => doc.pageTexts.getD page_num "")
    let full_text := String.intercalate "\n\n" text_content
    .ok { text := full_text, path := pdf_path, pages := num_pages,
          metadata := metadata }

/-! ## LLM port (`llm_port.py`) -/

/-- Embeds `LLMRequest`. -/
structure LLMRequest where
  prompt : String
  model : String
  temperature : Rat := 7/10
  max_tokens : Option Int := none

/-- Embeds `LLMResponse`. -/
structure LLMResponse where
  text : String
  model : String
  metadata : List (String × PyValue) := []

/-! ## Ollama adapter (`ollama_adapter.py`) -/

/-- Embeds `OllamaConfig`. -/
structure OllamaConfig where
  base_url : String := "http://localhost:11434"
  timeout : Int := 60

/-- Fields `OllamaAdapter.generate` reads from the parsed response JSON with
`response_json.get(...)`; `none` models an absent key. -/
structure OllamaResponseJson where
  response : Option String := none
  model : Option String := none
  total_duration : Option Int := none
  load_duration : Option Int := none
  prompt_eval_count : Option Int := none
  eval_count : Option Int := none
  eval_duration : Option Int := none

/-- Outcome of the HTTP POST issued by `OllamaAdapter.generate`: transport
failure (`httpx.RequestError`), non-2xx status (`raise_for_status` raising
`httpx.HTTPStatusError`), a body `json.loads` rejects, or a parsed body. -/
inductive OllamaOutcome where
  | requestError (msg : String)
  | statusError (msg : String)
  | invalidJson (msg : String)
  | ok (body : OllamaResponseJson)

/-- Embeds `OllamaAdapter.generate`; `outcome` is what the HTTP call yields. -/
def OllamaAdapter.generate (request : LLMRequest) (outcome : OllamaOutcome) :
    Except PyError LLMResponse :=
  match outcome with
  | .requestError msg =>
    .error (.connectionError ("Failed to connect to Ollama API: " ++ msg))
  | .statusError msg => .error (.httpStatusError msg)
  | .invalidJson msg =>
    .error (.valueError ("Invalid response from Ollama API: " ++ msg))
  | .ok body =>
    .ok { text := body.response.getD ""
        , model := request.model
        , metadata :=
            [ ("model_name", .pyStr (body.model.getD request.model))
            , ("total_duration", .pyInt (body.total_duration.getD 0))
            , ("load_duration", .pyInt (body.load_duration.getD 0))
            , ("prompt_eval_count", .pyInt (body.prompt_eval_count.getD 0))
            , ("eval_count", .pyInt (body.eval_count.getD 0))
            , ("eval_duration", .pyInt (body.eval_duration.getD 0)) ] }

/-! ## OpenAI adapter (`openai_adapter.py`) -/

/-- Embeds `OpenAIConfig`. -/
structure OpenAIConfig where
  api_key : String := ""
  organization : Option String := none
  timeout : Rat := 60

/-- Embeds the constructed `OpenAIAdapter` object. -/
structure OpenAIAdapter where
  config : OpenAIConfig

/-- Embeds `OpenAIAdapter.__init__`: rejects an empty (falsy) `api_key`
before any client is built. -/
def OpenAIAdapter.create (config : OpenAIConfig) : Except PyError OpenAIAdapter :=
  if config.api_key = "" then
    .error (.valueError
      "OpenAI API key is required. Set it via OPENAI_API_KEY environment variable.")
  else
    .ok { config := config }

/-- The message part of one completion choice (`choice.message.content`). -/
structure OpenAIMessage where
  content : Option String := none

/-- One completion choice of the chat-completion response. -/
structure OpenAIChoice where
  message : OpenAIMessage := {}
  finish_reason : Option String := none

/-- Token usage block of the chat-completion response. -/
structure OpenAIUsage where
  prompt_tokens : Int := 0
  completion_tokens : Int := 0
  total_tokens : Int := 0

/-- The chat-completion response object the client returns on success. -/
structure OpenAIChatResponse where
  model : String
  choices : List OpenAIChoice := []
  usage : Option OpenAIUsage := none

/-- The body of the `try` block of `OpenAIAdapter.generate`: `clientResult` is
what `client.chat.completions.create` yields (a response, or a raised error). -/
def OpenAIAdapter.generateBody (request : LLMRequest)
    (clientResult : Except PyError OpenAIChatResponse) :
    Except PyError LLMResponse :=
  match clientResult with
  | .error e => .error e
  | .ok response =>
    match response.choices with
    | [] => .error (.valueError "No choices in OpenAI response")
    | choice :: _ =>
      .ok { text := choice.message.content.getD ""
          , model := request.model
          , metadata :=
              [ ("model_name", .pyStr response.model)
              , ("prompt_tokens", .pyInt
                  (match response.usage with
                   | some u => u.prompt_tokens
                   | none => 0))
              , ("completion_tokens", .pyInt
                  (match response.usage with
                   | some u => u.completion_tokens
                   | none => 0))
              , ("total_tokens", .pyInt
                  (match response.usage with
                   | some u => u.total_tokens
                   | none => 0))
              , ("finish_reason",
                  match choice.finish_reason with
                  | some s => .pyStr s
                  | none => .pyNone) ] }

/-- Embeds `OpenAIAdapter.generate`: `except Exception as e` catches every
failure of the `try` body and re-raises `ValueError(f"Error with OpenAI API:
{str(e)}")`. -/
def OpenAIAdapter.generate (request : LLMRequest)
    (clientResult : Except PyError OpenAIChatResponse) :
    Except PyError LLMResponse :=
  match OpenAIAdapter.generateBody request clientResult with
  | .ok r => .ok r
  | .error e => .error (.valueError ("Error with OpenAI API: " ++ e.message))

/-! ## Orchestrator (`pdf_summarizer.py`) -/

/-- Embeds `SummaryRequest`. -/
structure SummaryRequest where
  pdf_path : String
  provider : String
  model : String
  temperature : Rat := 7/10
  max_tokens : Option Int := none
  openai_api_key : Option String := none

/-- Embeds `SummaryResponse`. -/
structure SummaryResponse where
  summary : String
  pdf_path : String
  provider : String
  model : String
  metadata : List (String × PyValue) := []

/-- The adapter `PDFSummarizer._get_llm_adapter` returns (an `LLMPort`). -/
inductive LLMAdapter where
  | ollamaAdapter (config : OllamaConfig)
  | openaiAdapter (adapter : OpenAIAdapter)

/-- Embeds `PDFSummarizer._get_llm_adapter`.  `not request.openai_api_key`
is true for `None` and for the empty string. -/
def PDFSummarizer.getLLMAdapter (request : SummaryRequest) :
    Except PyError LLMAdapter :=
  if strToLower request.provider = "ollama" then
    .ok (.ollamaAdapter {})
  else if strToLower request.provider = "openai" then
    if request.openai_api_key.getD "" = "" then
      .error (.valueError "OpenAI API key is required for OpenAI provider")
    else
      match OpenAIAdapter.create { api_key := request.openai_api_key.getD "" } with
      | .error e => .error e
      | .ok adapter => .ok (.openaiAdapter adapter)
  else
    .error (.valueError ("Unsupported provider: " ++ request.provider))

/-- Embeds `PDFSummarizer._create_summary_prompt` (the f-string template). -/
def PDFSummarizer.createSummaryPrompt (pdf_result : PDFExtractResult) : String :=
  "\nPlease summarize the following document in a comprehensive way:\n\nDOCUMENT TITLE: "
    ++ dictGet pdf_result.metadata "Title" "Unknown"
    ++ "\nDOCUMENT AUTHOR: "
    ++ dictGet pdf_result.metadata "Author" "Unknown"
    ++ "\nDOCUMENT PAGES: "
    ++ toString pdf_result.pages
    ++ "\n\nDOCUMENT CONTENT:\n"
    ++ pdf_result.text
    ++ "\n\nPlease provide a structured summary covering the main points, key findings, and important details.\n"

/-- The external effects a `summarize` run observes: the file system and the
outcome each provider's network call would have. -/
structure World where
  fileAt : String → PDFFile
  ollamaOutcome : OllamaOutcome
  openaiResult : Except PyError OpenAIChatResponse

/-- Dispatch of `llm_adapter.generate(llm_request)` to the selected adapter. -/
def LLMAdapter.generate (adapter : LLMAdapter) (w : World)
    (request : LLMRequest) : Except PyError LLMResponse :=
  match adapter with
  | .ollamaAdapter _ => OllamaAdapter.generate request w.ollamaOutcome
  | .openaiAdapter _ => OpenAIAdapter.generate request w.openaiResult

/-- Embeds `PDFSummarizer.summarize`.  `PDFSummarizer.__init__` builds
`PDFExtractor()` with the default config, hence `extract` runs with `{}`.
The `try/except` around the body logs and re-raises the same exception, so
each failing step's error propagates unchanged. -/
def PDFSummarizer.summarize (w : World) (request : SummaryRequest) :
    Except PyError SummaryResponse :=
  match PDFExtractor.extract {} request.pdf_path (w.fileAt request.pdf_path) with
  | .error e => .error e
  | .ok pdf_result =>
    match PDFSummarizer.getLLMAdapter request with
    | .error e => .error e
    | .ok llm_adapter =>
      let prompt := PDFSummarizer.createSummaryPrompt pdf_result
      let llm_request : LLMRequest :=
        { prompt := prompt
        , model := request.model
        , temperature := request.temperature
        , max_tokens := request.max_tokens }
      match llm_adapter.generate w llm_request with
      | .error e => .error e
      | .ok llm_response =>
        .ok { summary := llm_response.text
            , pdf_path := request.pdf_path
            , provider := request.provider
            , model := request.model
            , metadata :=
                [ ("pdf_pages", .pyInt pdf_result.pages)
                , ("pdf_metadata", .pyDict
                    (pdf_result.metadata.map (fun kv => (kv.1, PyValue.pyStr kv.2))))
                , ("llm_metadata", .pyDict llm_response.metadata) ] }

/-! ## HTTP endpoint (`fastapi_app.py`) -/

/-- Embeds `APIResponse`. -/
structure APIResponse where
  summary : String
  filename : String
  provider : String
  model : String
  metadata : List (String × PyValue) := []

/-- Embeds the `summarize_pdf` endpoint handler: the filename guard, then the
`except` clauses mapping the propagated error to an HTTP status and detail.
`summarizeResult` is what `summarizer.summarize(summary_request)` yields;
the guard fires before any of that processing happens, so the result is
ignored in that branch. -/
def summarize_pdf (filename : String)
    (summarizeResult : Except PyError SummaryResponse) :
    Except (Nat × String) APIResponse :=
  if ¬ (strEndsWith (strToLower filename) ".pdf") then
    .error (400, "Uploaded file must be a PDF")
  else
    match summarizeResult with
    | .ok response =>
      .ok { summary := response.summary
          , filename := filename
          , provider := response.provider
          , model := response.model
          , metadata := response.metadata }
    | .error (.fileNotFound m) => .error (404, "PDF file not found: " ++ m)
    | .error (.valueError m) => .error (400, "Invalid request: " ++ m)
    | .error (.connectionError m) => .error (503, "Connection error: " ++ m)
    | .error e => .error (500, "Internal server error: " ++ e.message)

/-! ## Theorems -/

/-- C6: in `OllamaAdapter.generate`, a transport failure (request error) is
raised as a connection error, and an unparseable response body is raised as a
value error. -/
theorem ollama_generate_error_mapping (request : LLMRequest) (msg : String) :
    OllamaAdapter.generate request (.requestError msg) =
      .error (.connectionError ("Failed to connect to Ollama API: " ++ msg)) ∧
    OllamaAdapter.generate request (.invalidJson msg) =
      .error (.valueError ("Invalid response from Ollama API: " ++ msg)) :=
  ⟨rfl, rfl⟩

/-- C7: for every parsed local-server response body, `OllamaAdapter.generate`
succeeds and its metadata holds exactly the keys `model_name`,
`total_duration`, `load_duration`, `prompt_eval_count`, `eval_count`,
`eval_duration`; each counter absent from the body is reported as `0`, and an
absent model name falls back to the request's model. -/
theorem ollama_generate_metadata_defaults (request : LLMRequest)
    (body : OllamaResponseJson) :
    ∃ response,
      OllamaAdapter.generate request (.ok body) = .ok response ∧
      response.metadata.map Prod.fst =
        ["model_name", "total_duration", "load_duration", "prompt_eval_count",
         "eval_count", "eval_duration"] ∧
      metaLookup response.metadata "model_name" =
        some (.pyStr (body.model.getD request.model)) ∧
      metaLookup response.metadata "total_duration" =
        some (.pyInt (body.total_duration.getD 0)) ∧
      metaLookup response.metadata "load_duration" =
        some (.pyInt (body.load_duration.getD 0)) ∧
      metaLookup response.metadata "prompt_eval_count" =
        some (.pyInt (body.prompt_eval_count.getD 0)) ∧
      metaLookup response.metadata "eval_count" =
        some (.pyInt (body.eval_count.getD 0)) ∧
      metaLookup response.metadata "eval_duration" =
        some (.pyInt (body.eval_duration.getD 0)) := by
  refine ⟨_, rfl, rfl, ?_, ?_, ?_, ?_, ?_, ?_⟩ <;> rfl

/-- C10: on success, both adapters set the `LLMResponse.model` field to the
request's model; the provider-reported model name only appears in the
metadata under `model_name`. -/
theorem generate_model_echoes_request (request : LLMRequest) :
    (∀ body response,
        OllamaAdapter.generate request (.ok body) = .ok response →
        response.model = request.model ∧
        metaLookup response.metadata "model_name" =
          some (.pyStr (body.model.getD request.model))) ∧
    (∀ chat response,
        OpenAIAdapter.generate request (.ok chat) = .ok response →
        response.model = request.model ∧
        metaLookup response.metadata "model_name" = some (.pyStr chat.model)) := by
  constructor
  · intro body response h
    simp only [OllamaAdapter.generate, Except.ok.injEq] at h
    subst h
    exact ⟨rfl, rfl⟩
  · intro chat response h
    cases hc : chat.choices with
    | nil =>
      simp [OpenAIAdapter.generate, OpenAIAdapter.generateBody, hc] at h
    | cons choice rest =>
      simp only [OpenAIAdapter.generate, OpenAIAdapter.generateBody, hc,
        Except.ok.injEq] at h
      subst h
      exact ⟨rfl, rfl⟩

/-- Witness for C10: a concrete Ollama success whose body reports a different
model name; the response's model field is the request's. -/
theorem generate_model_echoes_request_witness :
    ({ text := ""
     , model := "m"
     , metadata :=
         [ ("model_name", PyValue.pyStr "served")
         , ("total_duration", PyValue.pyInt 0)
         , ("load_duration", PyValue.pyInt 0)
         , ("prompt_eval_count", PyValue.pyInt 0)
         , ("eval_count", PyValue.pyInt 0)
         , ("eval_duration", PyValue.pyInt 0) ] } : LLMResponse).model = "m" ∧
    metaLookup
        [ ("model_name", PyValue.pyStr "served")
        , ("total_duration", PyValue.pyInt 0)
        , ("load_duration", PyValue.pyInt 0)
        , ("prompt_eval_count", PyValue.pyInt 0)
        , ("eval_count", PyValue.pyInt 0)
        , ("eval_duration", PyValue.pyInt 0) ] "model_name" =
      some (.pyStr "served") :=
  (generate_model_echoes_request { prompt := "p", model := "m" }).1
    { model := some "served" } _ rfl

/-- C8: the prompt is the single fixed template embedding the title
(metadata key `Title`, default `Unknown`), the author (key `Author`, default
`Unknown`), the page count, and the entire extracted text, followed by the
fixed structured-summary instruction; and the `get` defaults fire exactly
when the key is absent. -/
theorem createSummaryPrompt_template (pdf_result : PDFExtractResult) :
    PDFSummarizer.createSummaryPrompt pdf_result =
      "\nPlease summarize the following document in a comprehensive way:\n\nDOCUMENT TITLE: "
        ++ dictGet pdf_result.metadata "Title" "Unknown"
        ++ "\nDOCUMENT AUTHOR: "
        ++ dictGet pdf_result.metadata "Author" "Unknown"
        ++ "\nDOCUMENT PAGES: "
        ++ toString pdf_result.pages
        ++ "\n\nDOCUMENT CONTENT:\n"
        ++ pdf_result.text
        ++ "\n\nPlease provide a structured summary covering the main points, key findings, and important details.\n" ∧
    (pdf_result.metadata.find? (fun kv => kv.1 == "Title") = none →
      dictGet pdf_result.metadata "Title" "Unknown" = "Unknown") ∧
    (pdf_result.metadata.find? (fun kv => kv.1 == "Author") = none →
      dictGet pdf_result.metadata "Author" "Unknown" = "Unknown") ∧
    (∀ kv, pdf_result.metadata.find? (fun p => p.1 == "Title") = some kv →
      dictGet pdf_result.metadata "Title" "Unknown" = kv.2) := by
  refine ⟨rfl, ?_, ?_, ?_⟩
  · intro h
    simp [dictGet, h]
  · intro h
    simp [dictGet, h]
  · intro kv h
    simp [dictGet, h]

/-- Witness for C8: a concrete extraction result with no `Title` or `Author`
key produces the template with both defaults. -/
theorem createSummaryPrompt_template_witness :
    PDFSummarizer.createSummaryPrompt
        { text := "body", path := "p.pdf", pages := 2, metadata := [] } =
      "\nPlease summarize the following document in a comprehensive way:\n\nDOCUMENT TITLE: "
        ++ "Unknown"
        ++ "\nDOCUMENT AUTHOR: "
        ++ "Unknown"
        ++ "\nDOCUMENT PAGES: "
        ++ "2"
        ++ "\n\nDOCUMENT CONTENT:\n"
        ++ "body"
        ++ "\n\nPlease provide a structured summary covering the main points, key findings, and important details.\n" ∧
    dictGet ([] : List (String × String)) "Title" "Unknown" = "Unknown" := by
  have h := createSummaryPrompt_template
    { text := "body", path := "p.pdf", pages := 2, metadata := [] }
  exact ⟨h.1, h.2.1 rfl⟩

/-- C9: the HTTP handler rejects any filename not ending (case-insensitively)
in `.pdf` with status 400 regardless of the processing result, and otherwise
maps the propagated error kind to a status: not-found to 404, value error to
400, connection error to 503, and every other kind to 500. -/
theorem summarize_pdf_status_mapping (filename : String) (m : String)
    (result : Except PyError SummaryResponse) :
    (¬ strEndsWith (strToLower filename) ".pdf" →
        summarize_pdf filename result = .error (400, "Uploaded file must be a PDF")) ∧
    (strEndsWith (strToLower filename) ".pdf" →
      summarize_pdf filename (.error (.fileNotFound m)) =
          .error (404, "PDF file not found: " ++ m) ∧
      summarize_pdf filename (.error (.valueError m)) =
          .error (400, "Invalid request: " ++ m) ∧
      summarize_pdf filename (.error (.connectionError m)) =
          .error (503, "Connection error: " ++ m) ∧
      summarize_pdf filename (.error (.httpStatusError m)) =
          .error (500, "Internal server error: " ++ m) ∧
      summarize_pdf filename (.error (.otherError m)) =
          .error (500, "Internal server error: " ++ m)) := by
  constructor
  · intro hno
    unfold summarize_pdf
    rw [if_pos hno]
  · intro hyes
    have hcond : ¬ ¬ (strEndsWith (strToLower filename) ".pdf" = true) :=
      not_not_intro hyes
    refine ⟨?_, ?_, ?_, ?_, ?_⟩ <;>
      · unfold summarize_pdf
        rw [if_neg hcond]
        try rfl

/-- Witness for C9: the uppercase filename `REPORT.PDF` passes the guard and a
not-found error maps to 404, while `notes.txt` is rejected with 400. -/
theorem summarize_pdf_status_mapping_witness :
    summarize_pdf "REPORT.PDF" (.error (.fileNotFound "gone")) =
      .error (404, "PDF file not found: gone") ∧
    summarize_pdf "notes.txt"
        (.ok { summary := "s", pdf_path := "p", provider := "ollama", model := "m" }) =
      .error (400, "Uploaded file must be a PDF") := by
  constructor
  · exact ((summarize_pdf_status_mapping "REPORT.PDF" "gone"
      (.error (.fileNotFound "gone"))).2 (by decide)).1
  · exact (summarize_pdf_status_mapping "notes.txt" ""
      (.ok { summary := "s", pdf_path := "p", provider := "ollama", model := "m" })).1
      (by decide)

/-- C3: provider resolution is case-insensitive: a provider lowercasing to
`ollama` selects the Ollama adapter, one lowercasing to `openai` (with a
non-empty key in the request) selects the OpenAI adapter, and any other
provider fails with a value error naming the unsupported provider. -/
theorem getLLMAdapter_provider_rules (request : SummaryRequest) :
    (strToLower request.provider = "ollama" →
        PDFSummarizer.getLLMAdapter request = .ok (.ollamaAdapter {})) ∧
    (∀ k, strToLower request.provider = "openai" →
        request.openai_api_key = some k → k ≠ "" →
        PDFSummarizer.getLLMAdapter request =
          .ok (.openaiAdapter { config := { api_key := k } })) ∧
    (strToLower request.provider ≠ "ollama" →
        strToLower request.provider ≠ "openai" →
        PDFSummarizer.getLLMAdapter request =
          .error (.valueError ("Unsupported provider: " ++ request.provider))) := by
  refine ⟨?_, ?_, ?_⟩
  · intro h
    unfold PDFSummarizer.getLLMAdapter
    rw [if_pos h]
  · intro k hp hk hne
    unfold PDFSummarizer.getLLMAdapter
    rw [hp, if_neg (by decide : ¬ ("openai" = "ollama")), if_pos rfl, hk]
    simp only [Option.getD_some]
    rw [if_neg hne]
    unfold OpenAIAdapter.create
    rw [if_neg hne]
  · intro h1 h2
    unfold PDFSummarizer.getLLMAdapter
    rw [if_neg h1, if_neg h2]

/-- Witness for C3: `OLLAMA` routes to the Ollama adapter, `OpenAI` with a key
routes to the OpenAI adapter, and `claude` is rejected by name. -/
theorem getLLMAdapter_provider_rules_witness :
    PDFSummarizer.getLLMAdapter
        { pdf_path := "a.pdf", provider := "OLLAMA", model := "m" } =
      .ok (.ollamaAdapter {}) ∧
    PDFSummarizer.getLLMAdapter
        { pdf_path := "a.pdf", provider := "OpenAI", model := "m",
          openai_api_key := some "sk" } =
      .ok (.openaiAdapter { config := { api_key := "sk" } }) ∧
    PDFSummarizer.getLLMAdapter
        { pdf_path := "a.pdf", provider := "claude", model := "m" } =
      .error (.valueError "Unsupported provider: claude") :=
  ⟨(getLLMAdapter_provider_rules
      { pdf_path := "a.pdf", provider := "OLLAMA", model := "m" }).1 rfl,
   (getLLMAdapter_provider_rules
      { pdf_path := "a.pdf", provider := "OpenAI", model := "m",
        openai_api_key := some "sk" }).2.1 "sk" rfl rfl (by decide),
   (getLLMAdapter_provider_rules
      { pdf_path := "a.pdf", provider := "claude", model := "m" }).2.2
      (by decide) (by decide)⟩

/-- C4: with provider resolving to OpenAI and an absent or empty credential,
`summarize` fails with the missing-key value error during adapter resolution,
for every world (so independently of any network outcome); and the adapter
constructor itself rejects an empty `api_key`. -/
theorem openai_missing_key_rejected (w : World) (request : SummaryRequest)
    (pdf_result : PDFExtractResult)
    (hx : PDFExtractor.extract {} request.pdf_path (w.fileAt request.pdf_path) =
      .ok pdf_result)
    (hp : strToLower request.provider = "openai")
    (hk : request.openai_api_key = none ∨ request.openai_api_key = some "") :
    PDFSummarizer.summarize w request =
      .error (.valueError "OpenAI API key is required for OpenAI provider") ∧
    (∀ config : OpenAIConfig, config.api_key = "" →
      OpenAIAdapter.create config =
        .error (.valueError
          "OpenAI API key is required. Set it via OPENAI_API_KEY environment variable.")) := by
  constructor
  · have hget : PDFSummarizer.getLLMAdapter request =
        .error (.valueError "OpenAI API key is required for OpenAI provider") := by
      unfold PDFSummarizer.getLLMAdapter
      rw [hp, if_neg (by decide : ¬ ("openai" = "ollama")), if_pos rfl]
      rcases hk with hk | hk <;> rw [hk] <;> rfl
    unfold PDFSummarizer.summarize
    rw [hx, hget]
  · intro config hc
    unfold OpenAIAdapter.create
    rw [if_pos hc]

/-- Witness for C4: a readable one-page PDF, provider `openai`, no key: the
run fails with the missing-key value error, and the constructor rejects the
empty key. -/
theorem openai_missing_key_rejected_witness :
    PDFSummarizer.summarize
        { fileAt := fun _ => .readable { pageTexts := ["x"] }
        , ollamaOutcome := .requestError "unused"
        , openaiResult := .ok { model := "gpt" } }
        { pdf_path := "a.pdf", provider := "openai", model := "m" } =
      .error (.valueError "OpenAI API key is required for OpenAI provider") ∧
    OpenAIAdapter.create { api_key := "" } =
      .error (.valueError
        "OpenAI API key is required. Set it via OPENAI_API_KEY environment variable.") := by
  have h := openai_missing_key_rejected
    { fileAt := fun _ => .readable { pageTexts := ["x"] }
    , ollamaOutcome := .requestError "unused"
    , openaiResult := .ok { model := "gpt" } }
    { pdf_path := "a.pdf", provider := "openai", model := "m" }
    { text := "x", path := "a.pdf", pages := 1, metadata := [] }
    rfl rfl (Or.inl rfl)
  exact ⟨h.1, h.2 { api_key := "" } rfl⟩

/-- Mapping an index range over `getD` is the corresponding contiguous slice
of the list, provided the indices stay in bounds (or the range is empty). -/
theorem range'_map_getD_eq_drop_take (l : List String) (a len : Nat)
    (h : a + len ≤ l.length ∨ len = 0) :
    (List.range' a len).map (fun i => l.getD i "") = (l.drop a).take len := by
  rcases h with h | h
  · apply List.ext_getElem
    · simp only [List.length_map, List.length_range', List.length_take,
        List.length_drop]
      omega
    · intro i h1 h2
      simp only [List.length_map, List.length_range'] at h1
      simp only [List.getElem_map, List.getElem_range']
      rw [List.getElem_take, List.getElem_drop]
      rw [List.getD_eq_getElem]
      · simp [Nat.add_comm]
      · omega
  · subst h
    simp

/-- C5: with a configured page range `(s, e)`, extraction of a parseable PDF
returns the pages with indices in `[max 0 s, min pages e)` — the slice of the
per-page texts — joined by a blank line, while the reported page count is the
full document's page count. -/
theorem extract_page_range_clamped (config : PDFExtractorConfig)
    (pdf_path : String) (doc : PDFDocument) (s e : Int)
    (hrange : config.page_range = some (s, e)) :
    PDFExtractor.extract config pdf_path (.readable doc) =
      .ok { text := String.intercalate "\n\n"
              ((doc.pageTexts.drop (max 0 s).toNat).take
                ((min (doc.pageTexts.length : Int) e).toNat - (max 0 s).toNat))
          , path := pdf_path
          , pages := doc.pageTexts.length
          , metadata := doc.rawMetadata.map (fun kv => (stripSlashKey kv.1, kv.2)) } := by
  have h2 : min (doc.pageTexts.length : Int) e ≤ (doc.pageTexts.length : Int) :=
    min_le_left _ _
  have h1 : (0 : Int) ≤ max 0 s := le_max_left 0 s
  have hlen : ((min (doc.pageTexts.length : Int) e) - max 0 s).toNat =
      (min (doc.pageTexts.length : Int) e).toNat - (max 0 s).toNat := by
    omega
  have hmain : (List.range' (max 0 s).toNat
        ((min (doc.pageTexts.length : Int) e - max 0 s).toNat)).map
        (fun page_num => doc.pageTexts.getD page_num "") =
      (doc.pageTexts.drop (max 0 s).toNat).take
        ((min (doc.pageTexts.length : Int) e).toNat - (max 0 s).toNat) := by
    rw [hlen]
    apply range'_map_getD_eq_drop_take
    omega
  unfold PDFExtractor.extract
  rw [hrange]
  dsimp only
  rw [hmain]

/-- Witness for C5: pages `["a","b","c","d"]` with range `(1, 3)` extract to
`"b\n\nc"` while the reported page count stays `4`. -/
theorem extract_page_range_clamped_witness :
    PDFExtractor.extract { page_range := some (1, 3) } "p.pdf"
        (.readable { pageTexts := ["a", "b", "c", "d"]
                   , rawMetadata := [("/Title", "T")] }) =
      .ok { text := "b\n\nc", path := "p.pdf", pages := 4,
            metadata := [("Title", "T")] } := by
  have h := extract_page_range_clamped { page_range := some (1, 3) } "p.pdf"
    { pageTexts := ["a", "b", "c", "d"], rawMetadata := [("/Title", "T")] }
    1 3 rfl
  exact h

/-- C1: whenever `summarize` succeeds, the response metadata is exactly the
three-key mapping `pdf_pages`, `pdf_metadata`, `llm_metadata`, holding
respectively the extraction result's page count, its metadata mapping, and
the provider response's metadata mapping, unmodified. -/
theorem summarize_metadata_exactly_three (w : World) (request : SummaryRequest)
    (response : SummaryResponse)
    (h : PDFSummarizer.summarize w request = .ok response) :
    ∃ pdf_result llm_adapter llm_response,
      PDFExtractor.extract {} request.pdf_path (w.fileAt request.pdf_path) =
        .ok pdf_result ∧
      PDFSummarizer.getLLMAdapter request = .ok llm_adapter ∧
      LLMAdapter.generate llm_adapter w
        { prompt := PDFSummarizer.createSummaryPrompt pdf_result
        , model := request.model
        , temperature := request.temperature
        , max_tokens := request.max_tokens } = .ok llm_response ∧
      response.metadata =
        [ ("pdf_pages", PyValue.pyInt pdf_result.pages)
        , ("pdf_metadata", PyValue.pyDict
            (pdf_result.metadata.map (fun kv => (kv.1, PyValue.pyStr kv.2))))
        , ("llm_metadata", PyValue.pyDict llm_response.metadata) ] := by
  unfold PDFSummarizer.summarize at h
  cases hx : PDFExtractor.extract {} request.pdf_path (w.fileAt request.pdf_path) with
  | error eo =>
    simp only [hx] at h
    exact Except.noConfusion h
  | ok pdf_result =>
    simp only [hx] at h
    cases ha : PDFSummarizer.getLLMAdapter request with
    | error eo =>
      simp only [ha] at h
      exact Except.noConfusion h
    | ok llm_adapter =>
      simp only [ha] at h
      cases hg : LLMAdapter.generate llm_adapter w
          { prompt := PDFSummarizer.createSummaryPrompt pdf_result
          , model := request.model
          , temperature := request.temperature
          , max_tokens := request.max_tokens } with
      | error eo =>
        simp only [hg] at h
        exact Except.noConfusion h
      | ok llm_response =>
        simp only [hg, Except.ok.injEq] at h
        refine ⟨pdf_result, llm_adapter, llm_response, rfl, rfl, hg, ?_⟩
        rw [← h]

/-- Sample document for the C1 witness run. -/
def sampleDoc : PDFDocument :=
  { pageTexts := ["hello"], rawMetadata := [("/Title", "T")] }

/-- Sample world for the C1 witness run: a readable one-page PDF and a
successful Ollama call with an empty response body. -/
def sampleWorld : World :=
  { fileAt := fun _ => .readable sampleDoc
  , ollamaOutcome := .ok {}
  , openaiResult := .error (.otherError "unused") }

/-- Sample request for the C1 witness run. -/
def sampleRequest : SummaryRequest :=
  { pdf_path := "doc.pdf", provider := "ollama", model := "m" }

/-- The summary response the C1 witness run produces. -/
def sampleSummaryResponse : SummaryResponse :=
  { summary := ""
  , pdf_path := "doc.pdf"
  , provider := "ollama"
  , model := "m"
  , metadata :=
      [ ("pdf_pages", .pyInt 1)
      , ("pdf_metadata", .pyDict [("Title", .pyStr "T")])
      , ("llm_metadata", .pyDict
          [ ("model_name", .pyStr "m")
          , ("total_duration", .pyInt 0)
          , ("load_duration", .pyInt 0)
          , ("prompt_eval_count", .pyInt 0)
          , ("eval_count", .pyInt 0)
          , ("eval_duration", .pyInt 0) ]) ] }

/-- Witness for C1: the sample run succeeds and its metadata is the three-key
mapping. -/
theorem summarize_metadata_exactly_three_witness :
    ∃ pdf_result llm_adapter llm_response,
      PDFExtractor.extract {} sampleRequest.pdf_path
          (sampleWorld.fileAt sampleRequest.pdf_path) = .ok pdf_result ∧
      PDFSummarizer.getLLMAdapter sampleRequest = .ok llm_adapter ∧
      LLMAdapter.generate llm_adapter sampleWorld
        { prompt := PDFSummarizer.createSummaryPrompt pdf_result
        , model := sampleRequest.model
        , temperature := sampleRequest.temperature
        , max_tokens := sampleRequest.max_tokens } = .ok llm_response ∧
      sampleSummaryResponse.metadata =
        [ ("pdf_pages", PyValue.pyInt pdf_result.pages)
        , ("pdf_metadata", PyValue.pyDict
            (pdf_result.metadata.map (fun kv => (kv.1, PyValue.pyStr kv.2))))
        , ("llm_metadata", PyValue.pyDict llm_response.metadata) ] :=
  summarize_metadata_exactly_three sampleWorld sampleRequest
    sampleSummaryResponse rfl

/-- Counterexample to C2: with the cloud provider, the client raising a
connection error inside `generate` reaches `summarize`'s caller as a value
error — the propagated error kind differs from the kind originally raised. -/
theorem summarize_error_kind_changed_cex :
    PDFSummarizer.summarize
        { fileAt := fun _ => .readable { pageTexts := ["x"] }
        , ollamaOutcome := .requestError "unused"
        , openaiResult := .error (.connectionError "boom") }
        { pdf_path := "a.pdf", provider := "openai", model := "gpt",
          openai_api_key := some "sk" } =
      .error (.valueError "Error with OpenAI API: boom") ∧
    PyError.valueError "Error with OpenAI API: boom" ≠
      PyError.connectionError "boom" :=
  ⟨rfl, by decide⟩

/-- C2 amended: `summarize` itself propagates every failure of extraction,
adapter selection/construction, and generation unchanged, but the cloud
adapter's `generate` catches every client failure and re-raises it as a value
error embedding the original message — so the error kind reaching the caller
equals the kind raised except through the cloud adapter's `generate`, where
it is always a value error. -/
theorem summarize_error_propagation (w : World) (request : SummaryRequest) :
    (∀ eo, PDFExtractor.extract {} request.pdf_path (w.fileAt request.pdf_path) =
        .error eo → PDFSummarizer.summarize w request = .error eo) ∧
    (∀ pdf_result eo,
        PDFExtractor.extract {} request.pdf_path (w.fileAt request.pdf_path) =
          .ok pdf_result →
        PDFSummarizer.getLLMAdapter request = .error eo →
        PDFSummarizer.summarize w request = .error eo) ∧
    (∀ pdf_result llm_adapter eo,
        PDFExtractor.extract {} request.pdf_path (w.fileAt request.pdf_path) =
          .ok pdf_result →
        PDFSummarizer.getLLMAdapter request = .ok llm_adapter →
        LLMAdapter.generate llm_adapter w
          { prompt := PDFSummarizer.createSummaryPrompt pdf_result
          , model := request.model
          , temperature := request.temperature
          , max_tokens := request.max_tokens } = .error eo →
        PDFSummarizer.summarize w request = .error eo) ∧
    (∀ llm_request eo,
        OpenAIAdapter.generate llm_request (.error eo) =
          .error (.valueError ("Error with OpenAI API: " ++ eo.message))) := by
  refine ⟨?_, ?_, ?_, ?_⟩
  · intro eo hx
    unfold PDFSummarizer.summarize
    simp only [hx]
  · intro pdf_result eo hx ha
    unfold PDFSummarizer.summarize
    simp only [hx, ha]
  · intro pdf_result llm_adapter eo hx ha hg
    unfold PDFSummarizer.summarize
    simp only [hx, ha, hg]
  · intro llm_request eo
    rfl

/-- Witness for the amended C2: a missing file propagates its not-found error
unchanged to the caller. -/
theorem summarize_error_propagation_witness :
    PDFSummarizer.summarize
        { fileAt := fun _ => .missing
        , ollamaOutcome := .requestError "unused"
        , openaiResult := .error (.otherError "unused") }
        { pdf_path := "x.pdf", provider := "ollama", model := "m" } =
      .error (.fileNotFound "PDF file not found: x.pdf") :=
  (summarize_error_propagation
      { fileAt := fun _ => .missing
      , ollamaOutcome := .requestError "unused"
      , openaiResult := .error (.otherError "unused") }
      { pdf_path := "x.pdf", provider := "ollama", model := "m" }).1
    (.fileNotFound "PDF file not found: x.pdf") rfl
